import Mathlib

/-!
Shallow embedding of `pkg/cmd/project/link/link.go` from the `cli`
repository: the `gh project link` subcommand, which links a project to a
repository or a team through a GraphQL mutation.

External collaborators (the queries client, the api client, the HTTP
client factory, the exporter, the IO streams) are modelled as oracle
functions returning `Except GoErr _`; the command's observable behaviour
is a result together with a trace of events (network calls and writes).
-/

namespace ProjectLink

/-- Go `error` values.  `flagError` models `cmdutil.FlagErrorf` (a usage
error), `simpleError` models `fmt.Errorf`, and `apiError` models opaque
errors produced by the external collaborators. -/
inductive GoErr where
  | flagError (msg : String)
  | simpleError (msg : String)
  | apiError (tag : String)
deriving DecidableEq, Repr

/-- `queries.Owner`: the fields of the owner that the command reads
(`owner.Login`; the identifier accompanies it). -/
structure Owner where
  login : String
  id : String
deriving DecidableEq, Repr

/-- `queries.Project`: the command reads `project.ID`. -/
structure Project where
  id : String
deriving DecidableEq, Repr

/-- `api.Repository` as returned by `api.GitHubRepo`: the command reads
`repo.ID`. -/
structure ApiRepository where
  id : String
deriving DecidableEq, Repr

/-- `api.Team` as returned by `api.OrganizationTeam`: the command reads
`team.ID`. -/
structure ApiTeam where
  id : String
deriving DecidableEq, Repr

/-- `queries.Repository` as echoed back by the
`linkProjectV2ToRepository` mutation: the command reads `.URL` and hands
the whole structure to the exporter. -/
structure Repository where
  url : String
deriving DecidableEq, Repr

/-- `queries.Team` as echoed back by the `linkProjectV2ToTeam` mutation:
the command reads `.URL` and hands the whole structure to the
exporter. -/
structure Team where
  url : String
deriving DecidableEq, Repr

/-- `githubv4.LinkProjectV2ToRepositoryInput`: exactly the two fields
the Go struct literal in `linkRepoArgs` populates. -/
structure LinkProjectV2ToRepositoryInput where
  projectID : String
  repositoryID : String
deriving DecidableEq, Repr

/-- `githubv4.LinkProjectV2ToTeamInput`: exactly the two fields the Go
struct literal in `linkTeamArgs` populates. -/
structure LinkProjectV2ToTeamInput where
  projectID : String
  teamID : String
deriving DecidableEq, Repr

/-- A value stored in the GraphQL variables map
(`map[string]interface{}`). -/
inductive VarValue where
  | repoInput (i : LinkProjectV2ToRepositoryInput)
  | teamInput (i : LinkProjectV2ToTeamInput)
deriving DecidableEq, Repr

/-- The GraphQL variables map, as the association list of its entries. -/
abbrev VarMap := List (String × VarValue)

/-- The mutation query struct `linkProjectToRepoMutation`; `Mutate`
fills `LinkProjectV2ToRepository.Repository`. -/
structure LinkProjectToRepoMutation where
  repository : Repository
deriving DecidableEq, Repr

/-- The mutation query struct `linkProjectToTeamMutation`; `Mutate`
fills `LinkProjectV2ToTeam.Team`. -/
structure LinkProjectToTeamMutation where
  team : Team
deriving DecidableEq, Repr

/-- `cmdutil.Exporter`: serializes the entity handed to `Write` and
reports a write result. -/
structure Exporter where
  serializeRepo : Repository → String
  serializeTeam : Team → String
  writeRes : Except GoErr Unit

/-- `iostreams.IOStreams`: the three facets the command uses —
`CanPrompt`, `IsStdoutTTY`, and the outcome of `fmt.Fprintf` on
`io.Out`. -/
structure IOStreams where
  canPrompt : Bool
  stdoutTTY : Bool
  fprintfRes : Except GoErr Unit

/-- `*api.Client` narrowed to the two lookups the command performs:
`api.GitHubRepo(c, ghrepo.New(ownerLogin, repoName))` and
`api.OrganizationTeam(c, ghrepo.New(ownerLogin, ""), teamSlug)`. -/
structure ApiClient where
  gitHubRepo : String → String → Except GoErr ApiRepository
  organizationTeam : String → String → Except GoErr ApiTeam

/-- `*queries.Client` narrowed to the operations the command performs:
`NewOwner(canPrompt, owner)`, `NewProject(canPrompt, owner, number,
fields)` and `Mutate(name, query, variables)` for each of the two query
shapes (the oracle returns the entity the server echoes into the query
struct). -/
structure QueriesClient where
  newOwner : Bool → String → Except GoErr Owner
  newProject : Bool → Owner → Int → Bool → Except GoErr Project
  mutateRepo : String → VarMap → Except GoErr Repository
  mutateTeam : String → VarMap → Except GoErr Team

/-- `linkOpts`.  `number` is the parsed `int32`; `strconv.ParseInt`
with bit size 32 rejects any value outside the `int32` range, so the
field always holds its exact mathematical value and is modelled as
`Int`. -/
structure LinkOpts where
  number : Int
  owner : String
  repo : String
  team : String
  projectID : String
  repoID : String
  teamID : String
  format : String
  exporter : Option Exporter

/-- `linkConfig`. -/
structure LinkConfig where
  httpClient : Except GoErr ApiClient
  client : QueriesClient
  opts : LinkOpts
  ios : IOStreams

/-- Observable events of one invocation: the network steps in the order
they are issued, plus writes to the output streams. -/
inductive Event where
  | ownerResolve
  | projectResolve
  | httpClientCreate
  | repoLookup
  | teamLookup
  | mutateCall (name : String) (vars : VarMap)
  | exportWrite (s : String)
  | stdoutWrite (s : String)

/-- The kind of an event, with the payload erased (used to state
ordering properties). -/
inductive EKind where
  | ownerResolve
  | projectResolve
  | httpClientCreate
  | repoLookup
  | teamLookup
  | mutateCall
  | exportWrite
  | stdoutWrite
deriving DecidableEq, Repr

def Event.kind : Event → EKind
  | .ownerResolve => .ownerResolve
  | .projectResolve => .projectResolve
  | .httpClientCreate => .httpClientCreate
  | .repoLookup => .repoLookup
  | .teamLookup => .teamLookup
  | .mutateCall _ _ => .mutateCall
  | .exportWrite _ => .exportWrite
  | .stdoutWrite _ => .stdoutWrite

/-- Whether an event is a network operation (owner/project resolution,
target lookup, or the mutation). -/
def EKind.isNetwork : EKind → Bool
  | .ownerResolve => true
  | .projectResolve => true
  | .repoLookup => true
  | .teamLookup => true
  | .mutateCall => true
  | _ => false

/-- Whether an event is a mutation execution (`client.Mutate`). -/
def Event.isMutate : Event → Bool
  | .mutateCall _ _ => true
  | _ => false

/-- Whether an event writes to standard output. -/
def Event.isStdoutWrite : Event → Bool
  | .stdoutWrite _ => true
  | _ => false

/-- `xs` is an initial segment of `ys`. -/
def initSeg {α : Type} (xs ys : List α) : Prop :=
  ∃ zs, ys = xs ++ zs

/-- Go `strconv.ParseInt(s, 10, 32)`, digit-string part: the decimal
value of a nonempty all-digit string, `none` otherwise (base 10 and
bit size 32, so no underscores and no base prefixes are accepted). -/
def decDigits : List Char → Option Nat
  | [] => none
  | cs =>
    if cs.all (fun c => '0' ≤ c && c ≤ '9') then
      some (cs.foldl (fun a c => a * 10 + (c.toNat - '0'.toNat)) 0)
    else none

/-- The signed decimal value of `s` under Go numeral syntax for
`strconv.ParseInt(s, 10, _)`: an optional `+`/`-` sign followed by one
or more ASCII digits; no range restriction. -/
def decValue (s : String) : Option Int :=
  match s.toList with
  | '-' :: rest => (decDigits rest).map (fun n => -(n : Int))
  | '+' :: rest => (decDigits rest).map (fun n => (n : Int))
  | rest => (decDigits rest).map (fun n => (n : Int))

/-- Go `strconv.ParseInt(s, 10, 32)`: `none` when the numeral is
syntactically invalid (`ErrSyntax`) or its value does not fit in a
signed 32-bit integer (`ErrRange`); in both cases the Go call returns a
non-nil error. -/
def parseInt32 (s : String) : Option Int :=
  match decValue s with
  | none => none
  | some v => if -(2 ^ 31) ≤ v ∧ v ≤ 2 ^ 31 - 1 then some v else none

/-- `linkRepoArgs`: a fresh zero-valued query struct and the variables
map holding the single `input` entry. -/
def linkRepoArgs (config : LinkConfig) :
    LinkProjectToRepoMutation × VarMap :=
  (⟨⟨""⟩⟩,
   [("input", VarValue.repoInput
      { projectID := config.opts.projectID
        repositoryID := config.opts.repoID })])

/-- `linkTeamArgs`: a fresh zero-valued query struct and the variables
map holding the single `input` entry. -/
def linkTeamArgs (config : LinkConfig) :
    LinkProjectToTeamMutation × VarMap :=
  (⟨⟨""⟩⟩,
   [("input", VarValue.teamInput
      { projectID := config.opts.projectID
        teamID := config.opts.teamID })])

/-- `printResults`: nothing is written unless stdout is a TTY; on a TTY
the URL is printed through `fmt.Fprintf(io.Out, "%s\n", url)`. -/
def printResults (config : LinkConfig) (url : String) :
    Except GoErr Unit × List Event :=
  if !config.ios.stdoutTTY then
    (Except.ok (), [])
  else
    (config.ios.fprintfRes, [Event.stdoutWrite (url ++ "\n")])

/-- `linkRepo`: repository lookup, then the mutation, then export or
print. -/
def linkRepo (c : ApiClient) (owner : Owner) (config : LinkConfig) :
    Except GoErr Unit × List Event :=
  match c.gitHubRepo owner.login config.opts.repo with
  | .error e => (.error e, [.repoLookup])
  | .ok repo =>
    let config := { config with opts := { config.opts with repoID := repo.id } }
    let args := linkRepoArgs config
    match config.client.mutateRepo "LinkProjectV2ToRepository" args.2 with
    | .error e =>
      (.error e, [.repoLookup, .mutateCall "LinkProjectV2ToRepository" args.2])
    | .ok echoed =>
      match config.opts.exporter with
      | some ex =>
        (ex.writeRes,
         [.repoLookup, .mutateCall "LinkProjectV2ToRepository" args.2,
          .exportWrite (ex.serializeRepo echoed)])
      | none =>
        let pr := printResults config echoed.url
        (pr.1,
         [.repoLookup, .mutateCall "LinkProjectV2ToRepository" args.2] ++ pr.2)

/-- `linkTeam`: team lookup, then the mutation, then export or print. -/
def linkTeam (c : ApiClient) (owner : Owner) (config : LinkConfig) :
    Except GoErr Unit × List Event :=
  match c.organizationTeam owner.login config.opts.team with
  | .error e => (.error e, [.teamLookup])
  | .ok team =>
    let config := { config with opts := { config.opts with teamID := team.id } }
    let args := linkTeamArgs config
    match config.client.mutateTeam "LinkProjectV2ToTeam" args.2 with
    | .error e =>
      (.error e, [.teamLookup, .mutateCall "LinkProjectV2ToTeam" args.2])
    | .ok echoed =>
      match config.opts.exporter with
      | some ex =>
        (ex.writeRes,
         [.teamLookup, .mutateCall "LinkProjectV2ToTeam" args.2,
          .exportWrite (ex.serializeTeam echoed)])
      | none =>
        let pr := printResults config echoed.url
        (pr.1,
         [.teamLookup, .mutateCall "LinkProjectV2ToTeam" args.2] ++ pr.2)

/-- `runLink`: owner resolution, project resolution, HTTP client
construction, then the repo or team branch. -/
def runLink (config : LinkConfig) : Except GoErr Unit × List Event :=
  let canPrompt := config.ios.canPrompt
  match config.client.newOwner canPrompt config.opts.owner with
  | .error e => (.error e, [.ownerResolve])
  | .ok owner =>
    match config.client.newProject canPrompt owner config.opts.number false with
    | .error e => (.error e, [.ownerResolve, .projectResolve])
    | .ok project =>
      let config := { config with opts := { config.opts with projectID := project.id } }
      match config.httpClient with
      | .error e => (.error e, [.ownerResolve, .projectResolve, .httpClientCreate])
      | .ok c =>
        if config.opts.repo ≠ "" then
          let r := linkRepo c owner config
          (r.1, [.ownerResolve, .projectResolve, .httpClientCreate] ++ r.2)
        else if config.opts.team ≠ "" then
          let r := linkTeam c owner config
          (r.1, [.ownerResolve, .projectResolve, .httpClientCreate] ++ r.2)
        else
          (.ok (), [.ownerResolve, .projectResolve, .httpClientCreate])

/-- The five flag-bound fields of `linkOpts` as set by flag parsing
(`--owner`, `--repo`, `--team` and the format flags); all the other
fields keep Go zero values when `RunE` starts. -/
structure FlagValues where
  owner : String
  repo : String
  team : String
  format : String
  exporter : Option Exporter

/-- The `linkOpts` value at the start of `RunE`: `opts := linkOpts{}`
with the flag-bound fields filled in by cobra. -/
def initialOpts (fv : FlagValues) : LinkOpts :=
  { number := 0
    owner := fv.owner
    repo := fv.repo
    team := fv.team
    projectID := ""
    repoID := ""
    teamID := ""
    format := fv.format
    exporter := fv.exporter }

/-- The outcome of the `RunE` closure up to dispatch: either an error
returned before `runF`/`runLink`, or the `linkConfig` handed to
`runF` (when the test hook is set) or `runLink` (otherwise). -/
inductive Dispatch where
  | errored (e : GoErr)
  | run (config : LinkConfig)

/-- The `RunE` closure of `NewCmdLink`: client construction, positional
number parsing (only when exactly one positional argument is present),
config construction, then the mutually-exclusive target flag checks,
then dispatch. -/
def runE (clientRes : Except GoErr QueriesClient)
    (httpClient : Except GoErr ApiClient) (ios : IOStreams)
    (fv : FlagValues) (args : List String) : Dispatch :=
  match clientRes with
  | .error e => .errored e
  | .ok client =>
    let parsed : Except GoErr LinkOpts :=
      match args with
      | [a] =>
        match parseInt32 a with
        | none => .error (.flagError ("invalid number: " ++ a))
        | some n => .ok { initialOpts fv with number := n }
      | _ => .ok (initialOpts fv)
    match parsed with
    | .error e => .errored e
    | .ok opts =>
      let config : LinkConfig :=
        { httpClient := httpClient, client := client, opts := opts, ios := ios }
      if config.opts.repo ≠ "" ∧ config.opts.team ≠ "" then
        .errored (.simpleError "specify only one of `--repo` or `--team`")
      else if config.opts.repo = "" ∧ config.opts.team = "" then
        .errored (.simpleError "specify either `--repo` or `--team`")
      else
        .run config

/-! Concrete fixtures used by witness theorems. -/

def sampleExporter : Exporter :=
  { serializeRepo := fun r => "json-repo:" ++ r.url
    serializeTeam := fun t => "json-team:" ++ t.url
    writeRes := Except.ok () }

def sampleIOS : IOStreams :=
  { canPrompt := true, stdoutTTY := true, fprintfRes := Except.ok () }

def quietIOS : IOStreams :=
  { canPrompt := false, stdoutTTY := false, fprintfRes := Except.ok () }

def sampleApi : ApiClient :=
  { gitHubRepo := fun _ _ => Except.ok ⟨"RID"⟩
    organizationTeam := fun _ _ => Except.ok ⟨"TID"⟩ }

def sampleClient : QueriesClient :=
  { newOwner := fun _ _ => Except.ok ⟨"monalisa", "OID"⟩
    newProject := fun _ _ _ _ => Except.ok ⟨"PID"⟩
    mutateRepo := fun _ _ => Except.ok ⟨"https://github.com/monalisa/my_repo"⟩
    mutateTeam := fun _ _ => Except.ok ⟨"https://github.com/orgs/o/teams/t"⟩ }

def sampleOpts : LinkOpts :=
  { number := 1, owner := "monalisa", repo := "my_repo", team := ""
    projectID := "PID", repoID := "", teamID := "", format := ""
    exporter := none }

def sampleConfig : LinkConfig :=
  { httpClient := Except.ok sampleApi, client := sampleClient
    opts := sampleOpts, ios := sampleIOS }

def bothFlags : FlagValues :=
  { owner := "monalisa", repo := "my_repo", team := "my_team"
    format := "", exporter := none }

def neitherFlag : FlagValues :=
  { owner := "monalisa", repo := "", team := ""
    format := "", exporter := none }

def repoFlag : FlagValues :=
  { owner := "monalisa", repo := "my_repo", team := ""
    format := "", exporter := none }

def failOwnerClient : QueriesClient :=
  { newOwner := fun _ _ => Except.error (GoErr.apiError "owner lookup failed")
    newProject := fun _ _ _ _ => Except.error (GoErr.apiError "unused")
    mutateRepo := fun _ _ => Except.error (GoErr.apiError "unused")
    mutateTeam := fun _ _ => Except.error (GoErr.apiError "unused") }

/-- The network events of a trace, with payloads erased. -/
def netKinds (evs : List Event) : List EKind :=
  (evs.map Event.kind).filter EKind.isNetwork

/-- The full network-call order of one run: owner resolution, project
resolution, target lookup (repository or team according to the flags),
then the mutation. -/
def expectedNetOrder (config : LinkConfig) : List EKind :=
  [EKind.ownerResolve, EKind.projectResolve,
   if config.opts.repo ≠ "" then EKind.repoLookup else EKind.teamLookup,
   EKind.mutateCall]

/-- C1: `linkRepoArgs` builds a variables map with exactly the single
`input` entry `{ProjectID = opts.projectID, RepositoryID = opts.repoID}`
(and a zero-valued query struct), and `linkTeamArgs` builds exactly
`{ProjectID = opts.projectID, TeamID = opts.teamID}`; nothing else is in
either payload. -/
theorem mutation_payload_exact (config : LinkConfig) :
    linkRepoArgs config =
      (⟨⟨""⟩⟩,
       [("input", VarValue.repoInput
          ⟨config.opts.projectID, config.opts.repoID⟩)]) ∧
    linkTeamArgs config =
      (⟨⟨""⟩⟩,
       [("input", VarValue.teamInput
          ⟨config.opts.projectID, config.opts.teamID⟩)]) :=
  ⟨rfl, rfl⟩

/-- C9: supplying the positional argument "0" yields exactly the same
dispatch (the same error, or the same `linkConfig` handed to
`runF`/`runLink`) as omitting the positional argument, for every client
outcome, flag assignment and IO stream state. -/
theorem zero_arg_same_as_omitted (clientRes : Except GoErr QueriesClient)
    (httpClient : Except GoErr ApiClient) (ios : IOStreams)
    (fv : FlagValues) :
    runE clientRes httpClient ios fv ["0"] =
      runE clientRes httpClient ios fv [] := by
  cases clientRes with
  | error e => rfl
  | ok client => rfl

/-- C3: a non-numeric positional argument makes the command fail with
the usage error whose message is literally `"invalid number: "` followed
by the offending value (so the message names it), and the dispatch is
never `run`, i.e. neither `runLink` nor the `runF` test hook is
invoked. -/
theorem nonnumeric_arg_usage_error (client : QueriesClient)
    (httpClient : Except GoErr ApiClient) (ios : IOStreams)
    (fv : FlagValues) (s : String) (h : parseInt32 s = none) :
    runE (Except.ok client) httpClient ios fv [s] =
      Dispatch.errored (GoErr.flagError ("invalid number: " ++ s)) ∧
    ∀ config, runE (Except.ok client) httpClient ios fv [s] ≠
      Dispatch.run config := by
  constructor
  · simp [runE, h]
  · intro config
    simp [runE, h]

theorem nonnumeric_arg_usage_error_witness :
    runE (Except.ok sampleClient) (Except.ok sampleApi) sampleIOS repoFlag
        ["abc"] =
      Dispatch.errored (GoErr.flagError ("invalid number: " ++ "abc")) ∧
    ∀ config, runE (Except.ok sampleClient) (Except.ok sampleApi) sampleIOS
        repoFlag ["abc"] ≠ Dispatch.run config :=
  nonnumeric_arg_usage_error sampleClient (Except.ok sampleApi) sampleIOS
    repoFlag "abc" (by decide)

/-- C10: the invalid-number check precedes target-flag validation: for a
non-numeric positional argument the command reports the invalid-number
usage error whatever the `--repo`/`--team` flags hold (including both
set, or neither), and the mutual-exclusion errors are never produced. -/
theorem invalid_number_precedes_flag_check (client : QueriesClient)
    (httpClient : Except GoErr ApiClient) (ios : IOStreams)
    (fv : FlagValues) (s : String) (h : parseInt32 s = none) :
    runE (Except.ok client) httpClient ios fv [s] =
      Dispatch.errored (GoErr.flagError ("invalid number: " ++ s)) ∧
    ∀ m, runE (Except.ok client) httpClient ios fv [s] ≠
      Dispatch.errored (GoErr.simpleError m) := by
  constructor
  · simp [runE, h]
  · intro m
    simp [runE, h]

theorem invalid_number_precedes_flag_check_witness :
    runE (Except.ok sampleClient) (Except.ok sampleApi) sampleIOS bothFlags
        ["12x"] =
      Dispatch.errored (GoErr.flagError ("invalid number: " ++ "12x")) ∧
    ∀ m, runE (Except.ok sampleClient) (Except.ok sampleApi) sampleIOS
        bothFlags ["12x"] ≠ Dispatch.errored (GoErr.simpleError m) :=
  invalid_number_precedes_flag_check sampleClient (Except.ok sampleApi)
    sampleIOS bothFlags "12x" (by decide)

/-- C2: once the client is constructed, supplying both `--repo` and
`--team` always fails (with the mutual-exclusion usage error, or with
the invalid-number usage error when the positional argument is also
bad); supplying neither likewise always fails; and the config is handed
to `runF`/`runLink` only when exactly one of the two target flags is
set. -/
theorem exactly_one_target_flag (client : QueriesClient)
    (httpClient : Except GoErr ApiClient) (ios : IOStreams)
    (fv : FlagValues) (args : List String) :
    (fv.repo ≠ "" ∧ fv.team ≠ "" →
      ∃ e, runE (Except.ok client) httpClient ios fv args =
          Dispatch.errored e ∧
        (e = GoErr.simpleError "specify only one of `--repo` or `--team`" ∨
         ∃ s, e = GoErr.flagError ("invalid number: " ++ s))) ∧
    (fv.repo = "" ∧ fv.team = "" →
      ∃ e, runE (Except.ok client) httpClient ios fv args =
          Dispatch.errored e ∧
        (e = GoErr.simpleError "specify either `--repo` or `--team`" ∨
         ∃ s, e = GoErr.flagError ("invalid number: " ++ s))) ∧
    (∀ config, runE (Except.ok client) httpClient ios fv args =
        Dispatch.run config →
      (config.opts.repo ≠ "" ∧ config.opts.team = "") ∨
      (config.opts.repo = "" ∧ config.opts.team ≠ "")) := by
  refine ⟨?_, ?_, ?_⟩
  · rintro ⟨h1, h2⟩
    match args with
    | [] =>
      refine ⟨_, ?_, Or.inl rfl⟩
      simp [runE, initialOpts, h1, h2]
    | [a] =>
      cases hp : parseInt32 a with
      | none =>
        refine ⟨_, ?_, Or.inr ⟨a, rfl⟩⟩
        simp [runE, hp]
      | some n =>
        refine ⟨_, ?_, Or.inl rfl⟩
        simp [runE, hp, initialOpts, h1, h2]
    | a :: b :: rest =>
      refine ⟨_, ?_, Or.inl rfl⟩
      simp [runE, initialOpts, h1, h2]
  · rintro ⟨h1, h2⟩
    match args with
    | [] =>
      refine ⟨_, ?_, Or.inl rfl⟩
      simp [runE, initialOpts, h1, h2]
    | [a] =>
      cases hp : parseInt32 a with
      | none =>
        refine ⟨_, ?_, Or.inr ⟨a, rfl⟩⟩
        simp [runE, hp]
      | some n =>
        refine ⟨_, ?_, Or.inl rfl⟩
        simp [runE, hp, initialOpts, h1, h2]
    | a :: b :: rest =>
      refine ⟨_, ?_, Or.inl rfl⟩
      simp [runE, initialOpts, h1, h2]
  · intro config hrun
    match args with
    | [] =>
      simp only [runE] at hrun
      split at hrun
      · exact absurd hrun (by simp)
      · rename_i hboth
        split at hrun
        · exact absurd hrun (by simp)
        · rename_i hneither
          cases hrun
          simp only [initialOpts] at hboth hneither ⊢
          by_cases hr : fv.repo = "" <;> by_cases ht : fv.team = "" <;>
            simp_all
    | [a] =>
      cases hp : parseInt32 a with
      | none => simp [runE, hp] at hrun
      | some n =>
        simp only [runE, hp] at hrun
        split at hrun
        · exact absurd hrun (by simp)
        · rename_i hboth
          split at hrun
          · exact absurd hrun (by simp)
          · rename_i hneither
            cases hrun
            simp only [initialOpts] at hboth hneither ⊢
            by_cases hr : fv.repo = "" <;> by_cases ht : fv.team = "" <;>
              simp_all
    | a :: b :: rest =>
      simp only [runE] at hrun
      split at hrun
      · exact absurd hrun (by simp)
      · rename_i hboth
        split at hrun
        · exact absurd hrun (by simp)
        · rename_i hneither
          cases hrun
          simp only [initialOpts] at hboth hneither ⊢
          by_cases hr : fv.repo = "" <;> by_cases ht : fv.team = "" <;>
            simp_all

theorem exactly_one_target_flag_witness :
    (bothFlags.repo ≠ "" ∧ bothFlags.team ≠ "") ∧
    (∃ e, runE (Except.ok sampleClient) (Except.ok sampleApi) sampleIOS
        bothFlags ["1"] = Dispatch.errored e ∧
      (e = GoErr.simpleError "specify only one of `--repo` or `--team`" ∨
       ∃ s, e = GoErr.flagError ("invalid number: " ++ s))) :=
  ⟨by decide,
   (exactly_one_target_flag sampleClient (Except.ok sampleApi) sampleIOS
     bothFlags ["1"]).1 (by decide)⟩

/-- C8: the positional project number is parsed with a 32-bit signed
bound: any well-formed decimal numeral whose value lies outside
`[-2^31, 2^31 - 1]` is rejected by the parse, and the command then fails
with the same "invalid number" usage error as for a non-numeric
argument. -/
theorem int32_range_numeral_rejected (s : String) (v : Int)
    (hs : decValue s = some v) (hout : v < -(2 ^ 31) ∨ 2 ^ 31 - 1 < v) :
    parseInt32 s = none ∧
    ∀ (client : QueriesClient) (httpClient : Except GoErr ApiClient)
      (ios : IOStreams) (fv : FlagValues),
      runE (Except.ok client) httpClient ios fv [s] =
        Dispatch.errored (GoErr.flagError ("invalid number: " ++ s)) := by
  have hp : parseInt32 s = none := by
    unfold parseInt32
    rw [hs]
    rcases hout with h | h <;> simp <;> omega
  refine ⟨hp, ?_⟩
  intro client httpClient ios fv
  simp [runE, hp]

theorem int32_range_numeral_rejected_witness :
    (decValue "3000000000" = some 3000000000 ∧
      (parseInt32 "3000000000" = none ∧
       ∀ (client : QueriesClient) (httpClient : Except GoErr ApiClient)
         (ios : IOStreams) (fv : FlagValues),
         runE (Except.ok client) httpClient ios fv ["3000000000"] =
           Dispatch.errored
             (GoErr.flagError ("invalid number: " ++ "3000000000")))) ∧
    (decValue "-3000000000" = some (-3000000000) ∧
      (parseInt32 "-3000000000" = none ∧
       ∀ (client : QueriesClient) (httpClient : Except GoErr ApiClient)
         (ios : IOStreams) (fv : FlagValues),
         runE (Except.ok client) httpClient ios fv ["-3000000000"] =
           Dispatch.errored
             (GoErr.flagError ("invalid number: " ++ "-3000000000")))) :=
  ⟨⟨by decide,
    int32_range_numeral_rejected "3000000000" 3000000000 (by decide)
      (by decide)⟩,
   ⟨by decide,
    int32_range_numeral_rejected "-3000000000" (-3000000000) (by decide)
      (by decide)⟩⟩

/-- C4: when an exporter is set, a successful run writes the exporter's
serialization of the entity echoed by the mutation (the repository or
team structure), and the plain URL-printing path is never taken: no
stdout write appears in the trace whatever the oracle outcomes. -/
theorem exporter_serializes_mutation_result (c : ApiClient) (owner : Owner)
    (config : LinkConfig) (ex : Exporter)
    (hex : config.opts.exporter = some ex) :
    (∀ repo echoed,
      c.gitHubRepo owner.login config.opts.repo = Except.ok repo →
      config.client.mutateRepo "LinkProjectV2ToRepository"
          [("input", VarValue.repoInput
            ⟨config.opts.projectID, repo.id⟩)] = Except.ok echoed →
      linkRepo c owner config =
        (ex.writeRes,
         [Event.repoLookup,
          Event.mutateCall "LinkProjectV2ToRepository"
            [("input", VarValue.repoInput
              ⟨config.opts.projectID, repo.id⟩)],
          Event.exportWrite (ex.serializeRepo echoed)])) ∧
    (∀ team echoed,
      c.organizationTeam owner.login config.opts.team = Except.ok team →
      config.client.mutateTeam "LinkProjectV2ToTeam"
          [("input", VarValue.teamInput
            ⟨config.opts.projectID, team.id⟩)] = Except.ok echoed →
      linkTeam c owner config =
        (ex.writeRes,
         [Event.teamLookup,
          Event.mutateCall "LinkProjectV2ToTeam"
            [("input", VarValue.teamInput
              ⟨config.opts.projectID, team.id⟩)],
          Event.exportWrite (ex.serializeTeam echoed)])) ∧
    (linkRepo c owner config).2.filter Event.isStdoutWrite = [] ∧
    (linkTeam c owner config).2.filter Event.isStdoutWrite = [] := by
  refine ⟨?_, ?_, ?_, ?_⟩
  · intro repo echoed h1 h2
    simp [linkRepo, linkRepoArgs, h1, h2, hex]
  · intro team echoed h1 h2
    simp [linkTeam, linkTeamArgs, h1, h2, hex]
  · cases h1 : c.gitHubRepo owner.login config.opts.repo with
    | error e => simp [linkRepo, h1, Event.isStdoutWrite]
    | ok repo =>
      cases h2 : config.client.mutateRepo "LinkProjectV2ToRepository"
          [("input", VarValue.repoInput
            ⟨config.opts.projectID, repo.id⟩)] with
      | error e =>
        simp [linkRepo, linkRepoArgs, h1, h2, Event.isStdoutWrite]
      | ok echoed =>
        simp [linkRepo, linkRepoArgs, h1, h2, hex, Event.isStdoutWrite]
  · cases h1 : c.organizationTeam owner.login config.opts.team with
    | error e => simp [linkTeam, h1, Event.isStdoutWrite]
    | ok team =>
      cases h2 : config.client.mutateTeam "LinkProjectV2ToTeam"
          [("input", VarValue.teamInput
            ⟨config.opts.projectID, team.id⟩)] with
      | error e =>
        simp [linkTeam, linkTeamArgs, h1, h2, Event.isStdoutWrite]
      | ok echoed =>
        simp [linkTeam, linkTeamArgs, h1, h2, hex, Event.isStdoutWrite]

theorem exporter_serializes_mutation_result_witness :
    linkRepo sampleApi ⟨"monalisa", "OID"⟩
        { sampleConfig with
          opts := { sampleOpts with exporter := some sampleExporter } } =
      (sampleExporter.writeRes,
       [Event.repoLookup,
        Event.mutateCall "LinkProjectV2ToRepository"
          [("input", VarValue.repoInput ⟨"PID", "RID"⟩)],
        Event.exportWrite
          (sampleExporter.serializeRepo
            ⟨"https://github.com/monalisa/my_repo"⟩)]) :=
  (exporter_serializes_mutation_result sampleApi ⟨"monalisa", "OID"⟩
    { sampleConfig with
      opts := { sampleOpts with exporter := some sampleExporter } }
    sampleExporter rfl).1 ⟨"RID"⟩
    ⟨"https://github.com/monalisa/my_repo"⟩ rfl rfl

/-- C5: with no exporter set, `printResults` writes nothing and returns
success when stdout is not a TTY, and writes exactly the URL followed by
one newline when it is; accordingly a successful repo- or team-link run
without exporter produces no output and succeeds when non-interactive,
and appends exactly one stdout write of the URL plus newline when
interactive. -/
theorem silent_when_not_tty (config : LinkConfig) (url : String) :
    (config.ios.stdoutTTY = false →
      printResults config url = (Except.ok (), [])) ∧
    (config.ios.stdoutTTY = true →
      printResults config url =
        (config.ios.fprintfRes, [Event.stdoutWrite (url ++ "\n")])) ∧
    (∀ (c : ApiClient) (owner : Owner) (repo : ApiRepository)
       (echoed : Repository),
      config.opts.exporter = none →
      c.gitHubRepo owner.login config.opts.repo = Except.ok repo →
      config.client.mutateRepo "LinkProjectV2ToRepository"
          [("input", VarValue.repoInput
            ⟨config.opts.projectID, repo.id⟩)] = Except.ok echoed →
      (config.ios.stdoutTTY = false →
        linkRepo c owner config =
          (Except.ok (),
           [Event.repoLookup,
            Event.mutateCall "LinkProjectV2ToRepository"
              [("input", VarValue.repoInput
                ⟨config.opts.projectID, repo.id⟩)]])) ∧
      (config.ios.stdoutTTY = true →
        linkRepo c owner config =
          (config.ios.fprintfRes,
           [Event.repoLookup,
            Event.mutateCall "LinkProjectV2ToRepository"
              [("input", VarValue.repoInput
                ⟨config.opts.projectID, repo.id⟩)],
            Event.stdoutWrite (echoed.url ++ "\n")]))) ∧
    (∀ (c : ApiClient) (owner : Owner) (team : ApiTeam) (echoed : Team),
      config.opts.exporter = none →
      c.organizationTeam owner.login config.opts.team = Except.ok team →
      config.client.mutateTeam "LinkProjectV2ToTeam"
          [("input", VarValue.teamInput
            ⟨config.opts.projectID, team.id⟩)] = Except.ok echoed →
      (config.ios.stdoutTTY = false →
        linkTeam c owner config =
          (Except.ok (),
           [Event.teamLookup,
            Event.mutateCall "LinkProjectV2ToTeam"
              [("input", VarValue.teamInput
                ⟨config.opts.projectID, team.id⟩)]])) ∧
      (config.ios.stdoutTTY = true →
        linkTeam c owner config =
          (config.ios.fprintfRes,
           [Event.teamLookup,
            Event.mutateCall "LinkProjectV2ToTeam"
              [("input", VarValue.teamInput
                ⟨config.opts.projectID, team.id⟩)],
            Event.stdoutWrite (echoed.url ++ "\n")]))) := by
  refine ⟨?_, ?_, ?_, ?_⟩
  · intro h
    simp [printResults, h]
  · intro h
    simp [printResults, h]
  · intro c owner repo echoed hex h1 h2
    constructor
    · intro htty
      simp [linkRepo, linkRepoArgs, printResults, h1, h2, hex, htty]
    · intro htty
      simp [linkRepo, linkRepoArgs, printResults, h1, h2, hex, htty]
  · intro c owner team echoed hex h1 h2
    constructor
    · intro htty
      simp [linkTeam, linkTeamArgs, printResults, h1, h2, hex, htty]
    · intro htty
      simp [linkTeam, linkTeamArgs, printResults, h1, h2, hex, htty]

theorem silent_when_not_tty_witness :
    printResults { sampleConfig with ios := quietIOS } "u" =
      (Except.ok (), []) ∧
    linkRepo sampleApi ⟨"monalisa", "OID"⟩
        { sampleConfig with ios := quietIOS } =
      (Except.ok (),
       [Event.repoLookup,
        Event.mutateCall "LinkProjectV2ToRepository"
          [("input", VarValue.repoInput ⟨"PID", "RID"⟩)]]) :=
  ⟨(silent_when_not_tty { sampleConfig with ios := quietIOS } "u").1 rfl,
   ((silent_when_not_tty { sampleConfig with ios := quietIOS } "u").2.2.1
     sampleApi ⟨"monalisa", "OID"⟩ ⟨"RID"⟩
     ⟨"https://github.com/monalisa/my_repo"⟩ rfl rfl rfl).1 rfl⟩

/-- C6: once the target lookup succeeds, exactly one `Mutate` call is
executed — whatever its outcome, there is no retry — and when the
mutation fails, the transport/API error is returned to the caller
unchanged; before a successful lookup no mutation is executed at all. -/
theorem single_mutation_error_verbatim (c : ApiClient) (owner : Owner)
    (config : LinkConfig) :
    (∀ repo, c.gitHubRepo owner.login config.opts.repo = Except.ok repo →
      ((linkRepo c owner config).2.filter Event.isMutate).length = 1) ∧
    (∀ e, c.gitHubRepo owner.login config.opts.repo = Except.error e →
      (linkRepo c owner config).2.filter Event.isMutate = []) ∧
    (∀ repo e,
      c.gitHubRepo owner.login config.opts.repo = Except.ok repo →
      config.client.mutateRepo "LinkProjectV2ToRepository"
          [("input", VarValue.repoInput
            ⟨config.opts.projectID, repo.id⟩)] = Except.error e →
      linkRepo c owner config =
        (Except.error e,
         [Event.repoLookup,
          Event.mutateCall "LinkProjectV2ToRepository"
            [("input", VarValue.repoInput
              ⟨config.opts.projectID, repo.id⟩)]])) ∧
    (∀ team, c.organizationTeam owner.login config.opts.team =
        Except.ok team →
      ((linkTeam c owner config).2.filter Event.isMutate).length = 1) ∧
    (∀ e, c.organizationTeam owner.login config.opts.team =
        Except.error e →
      (linkTeam c owner config).2.filter Event.isMutate = []) ∧
    (∀ team e,
      c.organizationTeam owner.login config.opts.team = Except.ok team →
      config.client.mutateTeam "LinkProjectV2ToTeam"
          [("input", VarValue.teamInput
            ⟨config.opts.projectID, team.id⟩)] = Except.error e →
      linkTeam c owner config =
        (Except.error e,
         [Event.teamLookup,
          Event.mutateCall "LinkProjectV2ToTeam"
            [("input", VarValue.teamInput
              ⟨config.opts.projectID, team.id⟩)]])) := by
  refine ⟨?_, ?_, ?_, ?_, ?_, ?_⟩
  · intro repo h1
    cases h2 : config.client.mutateRepo "LinkProjectV2ToRepository"
        [("input", VarValue.repoInput ⟨config.opts.projectID, repo.id⟩)] with
    | error e =>
      simp [linkRepo, linkRepoArgs, h1, h2, Event.isMutate]
    | ok echoed =>
      cases hex : config.opts.exporter with
      | none =>
        cases htty : config.ios.stdoutTTY <;>
          simp [linkRepo, linkRepoArgs, printResults, h1, h2, hex, htty,
            Event.isMutate]
      | some ex =>
        simp [linkRepo, linkRepoArgs, h1, h2, hex, Event.isMutate]
  · intro e h1
    simp [linkRepo, h1, Event.isMutate]
  · intro repo e h1 h2
    simp [linkRepo, linkRepoArgs, h1, h2]
  · intro team h1
    cases h2 : config.client.mutateTeam "LinkProjectV2ToTeam"
        [("input", VarValue.teamInput ⟨config.opts.projectID, team.id⟩)] with
    | error e =>
      simp [linkTeam, linkTeamArgs, h1, h2, Event.isMutate]
    | ok echoed =>
      cases hex : config.opts.exporter with
      | none =>
        cases htty : config.ios.stdoutTTY <;>
          simp [linkTeam, linkTeamArgs, printResults, h1, h2, hex, htty,
            Event.isMutate]
      | some ex =>
        simp [linkTeam, linkTeamArgs, h1, h2, hex, Event.isMutate]
  · intro e h1
    simp [linkTeam, h1, Event.isMutate]
  · intro team e h1 h2
    simp [linkTeam, linkTeamArgs, h1, h2]

theorem single_mutation_error_verbatim_witness :
    ((linkRepo sampleApi ⟨"monalisa", "OID"⟩ sampleConfig).2.filter
      Event.isMutate).length = 1 :=
  (single_mutation_error_verbatim sampleApi ⟨"monalisa", "OID"⟩
    sampleConfig).1 ⟨"RID"⟩ rfl

theorem initSeg_prepend {α : Type} (ws : List α) {xs ys : List α}
    (h : initSeg xs ys) : initSeg (ws ++ xs) (ws ++ ys) := by
  rcases h with ⟨zs, rfl⟩
  exact ⟨zs, by simp⟩

/-- The network events of `linkRepo` form an in-order initial segment
of lookup-then-mutation. -/
theorem linkRepo_netSeg (c : ApiClient) (owner : Owner)
    (config : LinkConfig) :
    initSeg (netKinds (linkRepo c owner config).2)
      [EKind.repoLookup, EKind.mutateCall] := by
  cases h1 : c.gitHubRepo owner.login config.opts.repo with
  | error e =>
    refine ⟨[EKind.mutateCall], ?_⟩
    simp [linkRepo, h1, netKinds, Event.kind, EKind.isNetwork]
  | ok repo =>
    cases h2 : config.client.mutateRepo "LinkProjectV2ToRepository"
        [("input", VarValue.repoInput ⟨config.opts.projectID, repo.id⟩)] with
    | error e =>
      refine ⟨[], ?_⟩
      simp [linkRepo, linkRepoArgs, h1, h2, netKinds, Event.kind,
        EKind.isNetwork]
    | ok echoed =>
      cases hex : config.opts.exporter with
      | none =>
        cases htty : config.ios.stdoutTTY <;>
          (refine ⟨[], ?_⟩;
           simp [linkRepo, linkRepoArgs, printResults, h1, h2, hex, htty,
             netKinds, Event.kind, EKind.isNetwork])
      | some ex =>
        refine ⟨[], ?_⟩
        simp [linkRepo, linkRepoArgs, h1, h2, hex, netKinds, Event.kind,
          EKind.isNetwork]

/-- The network events of `linkTeam` form an in-order initial segment
of lookup-then-mutation. -/
theorem linkTeam_netSeg (c : ApiClient) (owner : Owner)
    (config : LinkConfig) :
    initSeg (netKinds (linkTeam c owner config).2)
      [EKind.teamLookup, EKind.mutateCall] := by
  cases h1 : c.organizationTeam owner.login config.opts.team with
  | error e =>
    refine ⟨[EKind.mutateCall], ?_⟩
    simp [linkTeam, h1, netKinds, Event.kind, EKind.isNetwork]
  | ok team =>
    cases h2 : config.client.mutateTeam "LinkProjectV2ToTeam"
        [("input", VarValue.teamInput ⟨config.opts.projectID, team.id⟩)] with
    | error e =>
      refine ⟨[], ?_⟩
      simp [linkTeam, linkTeamArgs, h1, h2, netKinds, Event.kind,
        EKind.isNetwork]
    | ok echoed =>
      cases hex : config.opts.exporter with
      | none =>
        cases htty : config.ios.stdoutTTY <;>
          (refine ⟨[], ?_⟩;
           simp [linkTeam, linkTeamArgs, printResults, h1, h2, hex, htty,
             netKinds, Event.kind, EKind.isNetwork])
      | some ex =>
        refine ⟨[], ?_⟩
        simp [linkTeam, linkTeamArgs, h1, h2, hex, netKinds, Event.kind,
          EKind.isNetwork]

/-- C7: every run issues its network operations sequentially in the
fixed order owner resolution, project resolution, target lookup,
mutation (the trace of network events is always an in-order initial
segment of that sequence); and a failure at a step returns that error
immediately, with no later step performed: shown for owner-resolution
failure, project-resolution failure, and repository/team lookup
failure. -/
theorem sequential_network_order :
    (∀ config : LinkConfig,
      initSeg (netKinds (runLink config).2) (expectedNetOrder config)) ∧
    (∀ (config : LinkConfig) (e : GoErr),
      config.client.newOwner config.ios.canPrompt config.opts.owner =
        Except.error e →
      runLink config = (Except.error e, [Event.ownerResolve])) ∧
    (∀ (config : LinkConfig) (owner : Owner) (e : GoErr),
      config.client.newOwner config.ios.canPrompt config.opts.owner =
        Except.ok owner →
      config.client.newProject config.ios.canPrompt owner
        config.opts.number false = Except.error e →
      runLink config =
        (Except.error e, [Event.ownerResolve, Event.projectResolve])) ∧
    (∀ (config : LinkConfig) (owner : Owner) (project : Project)
       (c : ApiClient) (e : GoErr),
      config.client.newOwner config.ios.canPrompt config.opts.owner =
        Except.ok owner →
      config.client.newProject config.ios.canPrompt owner
        config.opts.number false = Except.ok project →
      config.httpClient = Except.ok c →
      config.opts.repo ≠ "" →
      c.gitHubRepo owner.login config.opts.repo = Except.error e →
      runLink config =
        (Except.error e,
         [Event.ownerResolve, Event.projectResolve,
          Event.httpClientCreate, Event.repoLookup])) ∧
    (∀ (config : LinkConfig) (owner : Owner) (project : Project)
       (c : ApiClient) (e : GoErr),
      config.client.newOwner config.ios.canPrompt config.opts.owner =
        Except.ok owner →
      config.client.newProject config.ios.canPrompt owner
        config.opts.number false = Except.ok project →
      config.httpClient = Except.ok c →
      config.opts.repo = "" →
      config.opts.team ≠ "" →
      c.organizationTeam owner.login config.opts.team = Except.error e →
      runLink config =
        (Except.error e,
         [Event.ownerResolve, Event.projectResolve,
          Event.httpClientCreate, Event.teamLookup])) := by
  refine ⟨?_, ?_, ?_, ?_, ?_⟩
  · intro config
    cases h1 : config.client.newOwner config.ios.canPrompt
        config.opts.owner with
    | error e =>
      refine ⟨[EKind.projectResolve,
        if config.opts.repo ≠ "" then EKind.repoLookup else EKind.teamLookup,
        EKind.mutateCall], ?_⟩
      simp [runLink, h1, netKinds, Event.kind, EKind.isNetwork,
        expectedNetOrder]
    | ok owner =>
      cases h2 : config.client.newProject config.ios.canPrompt owner
          config.opts.number false with
      | error e =>
        refine ⟨[if config.opts.repo ≠ "" then EKind.repoLookup
          else EKind.teamLookup, EKind.mutateCall], ?_⟩
        simp [runLink, h1, h2, netKinds, Event.kind, EKind.isNetwork,
          expectedNetOrder]
      | ok project =>
        cases h3 : config.httpClient with
        | error e =>
          refine ⟨[if config.opts.repo ≠ "" then EKind.repoLookup
            else EKind.teamLookup, EKind.mutateCall], ?_⟩
          simp [runLink, h1, h2, h3, netKinds, Event.kind, EKind.isNetwork,
            expectedNetOrder]
        | ok c =>
          by_cases hrepo : config.opts.repo = ""
          · by_cases hteam : config.opts.team = ""
            · refine ⟨[EKind.teamLookup, EKind.mutateCall], ?_⟩
              simp [runLink, h1, h2, h3, hrepo, hteam, netKinds, Event.kind,
                EKind.isNetwork, expectedNetOrder]
            · have h4 := linkTeam_netSeg c owner
                { config with opts :=
                  { config.opts with projectID := project.id } }
              have hr : runLink config =
                  ((linkTeam c owner { config with opts :=
                    { config.opts with projectID := project.id } }).1,
                   [Event.ownerResolve, Event.projectResolve,
                    Event.httpClientCreate] ++
                   (linkTeam c owner { config with opts :=
                    { config.opts with projectID := project.id } }).2) := by
                simp [runLink, h1, h2, h3, hrepo, hteam]
              rw [hr]
              have hnk : netKinds
                  ([Event.ownerResolve, Event.projectResolve,
                    Event.httpClientCreate] ++
                   (linkTeam c owner { config with opts :=
                    { config.opts with projectID := project.id } }).2) =
                  [EKind.ownerResolve, EKind.projectResolve] ++
                  netKinds (linkTeam c owner { config with opts :=
                    { config.opts with projectID := project.id } }).2 := by
                simp [netKinds, Event.kind, EKind.isNetwork]
              have hexp : expectedNetOrder config =
                  [EKind.ownerResolve, EKind.projectResolve] ++
                  [EKind.teamLookup, EKind.mutateCall] := by
                simp [expectedNetOrder, hrepo]
              rw [hnk, hexp]
              exact initSeg_prepend _ h4
          · have h4 := linkRepo_netSeg c owner
              { config with opts :=
                { config.opts with projectID := project.id } }
            have hr : runLink config =
                ((linkRepo c owner { config with opts :=
                  { config.opts with projectID := project.id } }).1,
                 [Event.ownerResolve, Event.projectResolve,
                  Event.httpClientCreate] ++
                 (linkRepo c owner { config with opts :=
                  { config.opts with projectID := project.id } }).2) := by
              simp [runLink, h1, h2, h3, hrepo]
            rw [hr]
            have hnk : netKinds
                ([Event.ownerResolve, Event.projectResolve,
                  Event.httpClientCreate] ++
                 (linkRepo c owner { config with opts :=
                  { config.opts with projectID := project.id } }).2) =
                [EKind.ownerResolve, EKind.projectResolve] ++
                netKinds (linkRepo c owner { config with opts :=
                  { config.opts with projectID := project.id } }).2 := by
              simp [netKinds, Event.kind, EKind.isNetwork]
            have hexp : expectedNetOrder config =
                [EKind.ownerResolve, EKind.projectResolve] ++
                [EKind.repoLookup, EKind.mutateCall] := by
              simp [expectedNetOrder, hrepo]
            rw [hnk, hexp]
            exact initSeg_prepend _ h4
  · intro config e h1
    simp [runLink, h1]
  · intro config owner e h1 h2
    simp [runLink, h1, h2]
  · intro config owner project c e h1 h2 h3 hrepo h4
    simp [runLink, linkRepo, h1, h2, h3, hrepo, h4]
  · intro config owner project c e h1 h2 h3 hrepo hteam h4
    simp [runLink, linkTeam, h1, h2, h3, hrepo, hteam, h4]

theorem sequential_network_order_witness :
    runLink { sampleConfig with client := failOwnerClient } =
      (Except.error (GoErr.apiError "owner lookup failed"),
       [Event.ownerResolve]) :=
  sequential_network_order.2.1
    { sampleConfig with client := failOwnerClient }
    (GoErr.apiError "owner lookup failed") rfl

end ProjectLink
